import Mathlib

/-!
Verification of the PyFLP model layer (mixer.py, pattern.py, _models.py).

The Python source is shallowly embedded: insertion-ordered Python dicts become
association lists over `Nat` keys, mutation becomes explicit state passing,
and fallible code returns an `Except` value or pairs its result with an
`Option PyErr`.  Each definition is translated from the named source
function; comments on a definition point at the lines it embeds.
-/

namespace PyFLP

/-- The Python exceptions raised by the embedded code (pyflp.exceptions plus
the relevant builtins). -/
inductive PyErr where
  | valueError
  | typeError
  | keyError
  | runtimeError
  | modelNotFound
  | noModelsFound
  | propertyCannotBeSet (id : Nat)
  deriving DecidableEq, Repr

deriving instance DecidableEq for Except

/-- One parsed 12-byte record of the `MixerID.Params` event body
(mixer.py, `MixerParamsEvent.STRUCT`): 4 reserved bytes, a 1-byte parameter
`id`, 1 reserved byte, a little-endian `u16` `channel_data` and a
little-endian `i32` `msg`.  The reserved bytes are not exposed by any model
accessor and are omitted from the record. -/
structure MixerParamRecord where
  id : Nat
  channel_data : Nat
  msg : Int
  deriving DecidableEq, Repr

/-- An insertion-ordered Python dict from parameter id to its record. -/
abbrev ParamDict := List (Nat × MixerParamRecord)

/-- Parameter ids of `_MixerParamsID` (mixer.py lines 119-136). -/
def SlotEnabled : Nat := 0

def SlotMix : Nat := 1

/-- Ids 64 - 191 are send level records per the comment in `_MixerParamsID`. -/
def RouteVolStart : Nat := 64

def Volume : Nat := 192

def Pan : Nat := 193

def StereoSeparation : Nat := 194

/-- `_MixerParamProp.__get__` (mixer.py lines 353-359): the `for` loop returns
the `msg` of the first record whose dict key equals the descriptor id and
falls through to an implicit `None` otherwise. -/
def mixerParamGet (pid : Nat) (own : ParamDict) : Option Int :=
  (own.find? (fun kv => kv.1 == pid)).map (fun kv => kv.2.msg)

/-- `_MixerParamProp.__set__` (mixer.py lines 361-366), translated statement
by statement.  The `for` loop assigns `item["msg"] = value` on every record
whose dict key equals the descriptor id.  The loop body contains no `break`,
so the `else` clause of the `for` statement runs unconditionally once the
loop finishes, raising `PropertyCannotBeSet(self._id)`.  The result pairs the
final state of the `own` dict with the raised exception, if any. -/
def mixerParamSet (pid : Nat) (v : Int) (own : ParamDict) : ParamDict × Option PyErr :=
  (own.map (fun kv => if kv.1 = pid then (kv.1, { kv.2 with msg := v }) else kv),
   some (PyErr.propertyCannotBeSet pid))

/-- `FLVersion` (_models.py lines 161-166): four fields, `build` optional. -/
structure FLVersion where
  major : Nat
  minor : Nat
  patch : Nat
  build : Option Nat
  deriving DecidableEq, Repr

/-- The Python comparison `version <= k` performed by `Mixer.max_inserts` and
`Mixer.max_slots`, where `version = dataclasses.astuple(FLVersion)` is the
4-tuple `(major, minor, patch, build)` and `k` is a 3-element table key.
Python compares tuples lexicographically, element by element; when the three
leading components are all equal, the comparison falls through to the
lengths, and a tuple that is a proper extension of the other is strictly
greater, so `version <= k` is `False`.  The `build` component is never
compared against anything because the keys have only three elements. -/
def astupleLeKey (v : FLVersion) (k : Nat × Nat × Nat) : Bool :=
  if v.major ≠ k.1 then decide (v.major < k.1)
  else if v.minor ≠ k.2.1 then decide (v.minor < k.2.1)
  else if v.patch ≠ k.2.2 then decide (v.patch < k.2.2)
  else false

/-- `Mixer._MAX_INSERTS` (mixer.py lines 606-614), in insertion order. -/
def MAX_INSERTS : List ((Nat × Nat × Nat) × Nat) :=
  [((1, 6, 5), 5), ((2, 0, 1), 8), ((3, 0, 0), 18), ((3, 3, 0), 20),
   ((4, 0, 0), 64), ((9, 0, 0), 105), ((12, 9, 0), 127)]

/-- `Mixer._MAX_SLOTS` (mixer.py line 616), in insertion order. -/
def MAX_SLOTS : List ((Nat × Nat × Nat) × Nat) :=
  [((1, 6, 5), 4), ((3, 0, 0), 8)]

/-- `Mixer.max_inserts` (mixer.py lines 683-701): return the value of the
first table key `k` with `version <= k`, else 127. -/
def max_inserts (v : FLVersion) : Nat :=
  match MAX_INSERTS.find? (fun kv => astupleLeKey v kv.1) with
  | some kv => kv.2
  | none => 127

/-- `Mixer.max_slots` (mixer.py lines 703-716): return the value of the
first table key `k` with `version <= k`, else 10. -/
def max_slots (v : FLVersion) : Nat :=
  match MAX_SLOTS.find? (fun kv => astupleLeKey v kv.1) with
  | some kv => kv.2
  | none => 10

/-- `Note._NOTE_NAMES` (pattern.py line 121): the twelve sharp-spelled note
names C, C-sharp, D, ... in semitone order. -/
def NOTE_NAMES : List String :=
  ["C", "C#", "D", "D#"] ++ ["E", "F", "F#", "G"] ++ ["G#", "A", "A#", "B"]

/-- Models Python `str.startswith` by comparing the character lists. -/
def strStartsWith (s p : String) : Bool :=
  p.data.isPrefixOf s.data

/-- Drops the first `n` characters of a string (Python slicing). -/
def strDropChars (s : String) (n : Nat) : String :=
  String.mk (s.data.drop n)

/-- Number of characters of a string (Python `len`). -/
def strCharLen (s : String) : Nat :=
  s.data.length

/-- Models the Python builtin `int(str)`: an optional sign followed by one or
more ASCII digits parses to the denoted integer; anything else raises
`ValueError`, modelled as `none`. -/
def pyDigitsCore (l : List Char) : Option Nat :=
  if l ≠ [] ∧ l.all Char.isDigit then
    some (l.foldl (fun acc c => 10 * acc + (c.toNat - 48)) 0)
  else none

def pyIntParse (s : String) : Option Int :=
  match s.data with
  | [] => none
  | c :: rest =>
    if c = '-' then (pyDigitsCore rest).map (fun n => -(n : Int))
    else if c = '+' then (pyDigitsCore rest).map (fun n => (n : Int))
    else (pyDigitsCore (c :: rest)).map (fun n => (n : Int))

/-- The `Note.key` getter (pattern.py lines 144-154):
`NOTE_NAMES[key % 12] + str(key // 12)`.  The stored value is the dict entry
of the note record; Python `%` and `//` with a positive divisor are
`Int.emod` and `Int.ediv`.  `key % 12` is always below 12, so the `getD`
default is never used. -/
def noteKeyGet (key : Int) : String :=
  NOTE_NAMES.getD (key.emod 12).toNat "" ++ toString (key.ediv 12)

/-- The integer branch of the `Note.key` setter (pattern.py lines 158-161):
a value outside `range(132)` raises `ValueError` and leaves the record
untouched, otherwise the value is stored.  The result pairs the stored key
after the call with the raised exception, if any. -/
def noteKeySetInt (value : Int) (cur : Int) : Int × Option PyErr :=
  if 0 ≤ value ∧ value < 132 then (value, none) else (cur, some PyErr.valueError)

/-- The loop of the string branch of the `Note.key` setter (pattern.py lines
163-168), over `enumerate(NOTE_NAMES)`.  For each name that is a prefix of
`value`, the suffix after removing the first occurrence of the name (which
is the prefix, given the `startswith` guard) is passed to `int`; a failed
conversion raises `ValueError` immediately, otherwise `octave * 12 + i` is
stored and the loop continues.  The loop body contains no `break`, so the
`else` clause of the `for` statement runs unconditionally once the loop
finishes, raising `ValueError("Invalid key name: ...")`. -/
def noteKeySetStrGo (value : String) : List (Nat × String) → Int → Int × Option PyErr
  | [], cur => (cur, some PyErr.valueError)
  | (i, name) :: rest, cur =>
    if strStartsWith value name then
      match pyIntParse (strDropChars value (strCharLen name)) with
      | none => (cur, some PyErr.valueError)
      | some octave => noteKeySetStrGo value rest (octave * 12 + (i : Int))
    else noteKeySetStrGo value rest cur

/-- The string branch of the `Note.key` setter. -/
def noteKeySetStr (value : String) (cur : Int) : Int × Option PyErr :=
  noteKeySetStrGo value NOTE_NAMES.enum cur

/-- An event of the stream, reduced to the fields the pattern and slot models
read: its tag id and its scalar payload (`U16Event.value`). -/
structure Event where
  id : Nat
  value : Nat
  deriving DecidableEq, Repr

/-- Tag bases of pyflp._events.  That module is not under src/; the bases are
modelled from the spec tag-range table (word events in [64, 128), dword in
[128, 192), text and variable-length data in [192, 256)).  No claim below
depends on the concrete numbers, only on the ids being distinct. -/
def WORD : Nat := 64

def DWORD : Nat := 128

def TEXT : Nat := 192

def DATA : Nat := 208

/-- `PatternID.New` (pattern.py line 107). -/
def PatternID_New : Nat := WORD + 1

/-- The members of `PatternID` (pattern.py lines 105-117): Looped, New,
Color, Name, ChannelIID, _161, _162, Length, Controllers, Notes. -/
def PATTERN_IDS : List Nat :=
  [26, PatternID_New, DWORD + 22, TEXT + 1, DWORD + 32, DWORD + 33,
   DWORD + 34, DWORD + 36, DATA + 15, DATA + 16]

/-- `MultiEventModel.__init__` (_models.py lines 76-85) groups the event
tuple into a dict from id to the sub-list of events with that id, in stream
order; `self._events[i]` is therefore the filtered sub-list. -/
def eventsById (events : List Event) (i : Nat) : List Event :=
  events.filter (fun e => e.id == i)

/-- `Patterns.__len__` (pattern.py lines 323-331): raise `NoModelsFound`
when the grouped dict has no `PatternID.New` key (no such event in the
stream), else return the size of the set of the values of those events.
Python set cardinality is the length of the deduplicated value list. -/
def patternsLen (events : List Event) : Except PyErr Nat :=
  if eventsById events PatternID_New = [] then Except.error PyErr.noModelsFound
  else Except.ok ((eventsById events PatternID_New).map Event.value).dedup.length

/-- Appends an event to the bucket of key `k` of an insertion-ordered dict of
lists (the `collections.defaultdict(list)` used by `Patterns.__iter__`):
a present key keeps its position, a missing key is appended at the end. -/
def bucketAdd (d : List (Nat × List Event)) (k : Nat) (e : Event) :
    List (Nat × List Event) :=
  if d.any (fun kv => kv.1 == k) then
    d.map (fun kv => if kv.1 = k then (kv.1, kv.2 ++ [e]) else kv)
  else d ++ [(k, [e])]

/-- The loop of `Patterns.__iter__` (pattern.py lines 309-321): walk the
event tuple; an event of the `PatternID` family is appended to the bucket of
the current pattern id, which a `PatternID.New` event first resets to its
payload.  The state is `(cur_pat_id, events_dict)` starting at `(0, {})`. -/
def patternsFold (events : List Event) : Nat × List (Nat × List Event) :=
  events.foldl
    (fun st e =>
      if PATTERN_IDS.contains e.id then
        let cur := if e.id = PatternID_New then e.value else st.1
        (cur, bucketAdd st.2 cur e)
      else st)
    (0, [])

/-- `Patterns.__iter__` yields one `Pattern` per bucket, in bucket insertion
order; a pattern is its list of events. -/
def patternsIter (events : List Event) : List (List Event) :=
  (patternsFold events).2.map (fun kv => kv.2)

/-- `Pattern.index` getter (pattern.py lines 262-265):
`self._events[PatternID.New][0].value`.  The dict lookup raises `KeyError`
when the pattern has no `PatternID.New` event; `[0]` is the first such event
in the pattern event list. -/
def patternIndex (p : List Event) : Except PyErr Nat :=
  match p.find? (fun e => e.id == PatternID_New) with
  | some e => Except.ok e.value
  | none => Except.error PyErr.keyError

/-- The `Pattern.index` setter (pattern.py lines 267-270):
`for event in self._events[PatternID.New]: event.value = value`.  The dict
lookup raises `KeyError` when the pattern has no `PatternID.New` event;
otherwise every such event gets the new payload, in place.  The result pairs
the pattern event list after the call with the raised exception, if any. -/
def patternSetIndex (v : Nat) (p : List Event) : List Event × Option PyErr :=
  if p.any (fun e => e.id == PatternID_New) then
    (p.map (fun e => if e.id = PatternID_New then { e with value := v } else e), none)
  else (p, some PyErr.keyError)

/-- Outcome of `Patterns.__getitem__`: the `NotImplemented` sentinel (after
the 1-based-index warning), a found pattern, or a raised exception. -/
inductive GetResult where
  | notImplemented
  | found (p : List Event)
  | raised (e : PyErr)
  deriving DecidableEq, Repr

/-- The lookup loop of `Patterns.__getitem__` (pattern.py lines 304-307):
return the first yielded pattern whose `__index__()` equals `i`; a
`KeyError` from `__index__` propagates; fall through to `ModelNotFound`. -/
def patternsGetGo (i : Nat) : List (List Event) → GetResult
  | [] => GetResult.raised PyErr.modelNotFound
  | p :: ps =>
    match patternIndex p with
    | Except.error e => GetResult.raised e
    | Except.ok idx => if idx = i then GetResult.found p else patternsGetGo i ps

/-- `Patterns.__getitem__` (pattern.py lines 290-307): `if not i` (an integer
index 0) warns about the 1-based indexing and returns `NotImplemented`;
otherwise the lookup loop runs over `Patterns.__iter__`. -/
def patternsGetItem (events : List Event) (i : Nat) : GetResult :=
  if i = 0 then GetResult.notImplemented
  else patternsGetGo i (patternsIter events)

/-- Little-endian scalar decoding of the construct field types. -/
def u16le (b0 b1 : Nat) : Nat := b0 + 256 * b1

def u32le (b0 b1 b2 b3 : Nat) : Nat :=
  b0 + 256 * b1 + 65536 * b2 + 16777216 * b3

/-- `Int32sl`: the unsigned 32-bit value reinterpreted as signed. -/
def i32le (b0 b1 b2 b3 : Nat) : Int :=
  let u := u32le b0 b1 b2 b3
  if u < 2147483648 then (u : Int) else (u : Int) - 4294967296

/-- `MixerParamsEvent.STRUCT_SIZE` (mixer.py line 166). -/
def STRUCT_SIZE : Nat := 12

/-- `STRUCT.parse` of one 12-byte chunk of the params body (mixer.py lines
159-165): byte 4 is `id`, bytes 6-7 are `channel_data` (u16 little-endian),
bytes 8-11 are `msg` (i32 little-endian); bytes 0-3 and 5 are reserved. -/
def parseParamRecord (chunk : List Nat) : MixerParamRecord :=
  { id := chunk.getD 4 0
    channel_data := u16le (chunk.getD 6 0) (chunk.getD 7 0)
    msg := i32le (chunk.getD 8 0) (chunk.getD 9 0) (chunk.getD 10 0) (chunk.getD 11 0) }

/-- Write to an insertion-ordered Python dict: a present key keeps its
position and gets the new value, a missing key is appended at the end. -/
def alistSet {α : Type} (d : List (Nat × α)) (k : Nat) (v : α) : List (Nat × α) :=
  if d.any (fun kv => kv.1 == k) then
    d.map (fun kv => if kv.1 = k then (k, v) else kv)
  else d ++ [(k, v)]

/-- Read from an insertion-ordered Python dict with a default (the access
path of a `defaultdict`, whose effect on the dict is subsumed by the
`alistSet` that follows every access in the embedded code). -/
def alistGetD {α : Type} (d : List (Nat × α)) (k : Nat) (dflt : α) : α :=
  match d.find? (fun kv => kv.1 == k) with
  | some kv => kv.2
  | none => dflt

/-- `_InsertItems` (mixer.py lines 150-155): per-slot records keyed by slot
index then parameter id, and the records of the insert itself keyed by
parameter id. -/
structure InsertItems where
  slots : List (Nat × ParamDict)
  own : ParamDict
  deriving DecidableEq, Repr

/-- The loop body of `MixerParamsEvent.__init__` (mixer.py lines 174-185)
for one parsed record: file it under insert index `(channel_data >> 6) &
0x7F`; ids `SlotEnabled` and `SlotMix` go into the per-slot map under slot
index `channel_data & 0x3F`, every other id into the own map of the
insert. -/
def placeRecord (items : List (Nat × InsertItems)) (item : MixerParamRecord) :
    List (Nat × InsertItems) :=
  let insert_idx := (item.channel_data >>> 6) &&& 0x7F
  let slot_idx := item.channel_data &&& 0x3F
  let insert := alistGetD items insert_idx { slots := [], own := [] }
  if item.id = SlotEnabled ∨ item.id = SlotMix then
    alistSet items insert_idx
      { insert with
        slots := alistSet insert.slots slot_idx
          (alistSet (alistGetD insert.slots slot_idx []) item.id item) }
  else
    alistSet items insert_idx { insert with own := alistSet insert.own item.id item }

/-- The parse result of `MixerParamsEvent.__init__`: the items table, the
`unparsed` flag, whether a warning was emitted, and the raw body bytes kept
by `DataEventBase`. -/
structure MixerParamsState where
  items : List (Nat × InsertItems)
  unparsed : Bool
  warned : Bool
  data : List Nat
  deriving DecidableEq, Repr

/-- `MixerParamsEvent.__init__` (mixer.py lines 168-191): a body whose
length is a multiple of 12 is cut into `len / 12` records, each parsed and
placed; otherwise the event is marked unparsed, a warning is emitted and the
items table stays empty.  The body bytes are kept unchanged either way. -/
def mixerParamsParse (data : List Nat) : MixerParamsState :=
  if data.length % STRUCT_SIZE = 0 then
    { items :=
        (List.range (data.length / STRUCT_SIZE)).foldl
          (fun acc i =>
            placeRecord acc
              (parseParamRecord ((data.drop (STRUCT_SIZE * i)).take STRUCT_SIZE)))
          []
      unparsed := false
      warned := false
      data := data }
  else { items := [], unparsed := true, warned := true, data := data }

/-- Written from the words of the claim, to be compared with the translation
of the source: each record is filed under insert index
`(channel_data >> 6) & 0x7F`; parameter ids 0 and 1 are placed in the
per-slot map under slot index `channel_data & 0x3F`, all other ids in the
own map of the insert. -/
def placeRecordSpec (items : List (Nat × InsertItems)) (item : MixerParamRecord) :
    List (Nat × InsertItems) :=
  let insert_idx := (item.channel_data >>> 6) &&& 0x7F
  let slot_idx := item.channel_data &&& 0x3F
  let insert := alistGetD items insert_idx { slots := [], own := [] }
  if item.id = 0 ∨ item.id = 1 then
    alistSet items insert_idx
      { insert with
        slots := alistSet insert.slots slot_idx
          (alistSet (alistGetD insert.slots slot_idx []) item.id item) }
  else
    alistSet items insert_idx { insert with own := alistSet insert.own item.id item }

/-- The records of a params body, as the claim describes them: the chunk at
offset `12 * i` parsed for each `i < len / 12`. -/
def paramRecords (data : List Nat) : List MixerParamRecord :=
  (List.range (data.length / STRUCT_SIZE)).map
    (fun i => parseParamRecord ((data.drop (STRUCT_SIZE * i)).take STRUCT_SIZE))

/-- `Insert.routes` (mixer.py lines 559-568), with the routing event
flattened to its boolean list and the generator run to completion by the
consumer.  For each record of the own dict, in order: a key at least
`RouteVolStart` consumes the next routing boolean (the conjunction
short-circuits, so smaller keys consume nothing) and yields the record
`msg` when that boolean is true.  `next` on an exhausted iterator raises
`StopIteration`, which PEP 479 turns into a `RuntimeError` inside the
generator; the keys have no upper bound check. -/
def routesGo : List Bool → ParamDict → Except PyErr (List Int)
  | _, [] => Except.ok []
  | bs, kv :: rest =>
    if RouteVolStart ≤ kv.1 then
      match bs with
      | [] => Except.error PyErr.runtimeError
      | b :: bs2 =>
        match routesGo bs2 rest with
        | Except.error e => Except.error e
        | Except.ok tl => Except.ok (if b then kv.2.msg :: tl else tl)
    else routesGo bs rest

def insertRoutes (routing : List Bool) (own : ParamDict) : Except PyErr (List Int) :=
  routesGo routing own

/-- Written from the words of the frozen claim: zip the routing booleans
with exactly the records whose id is at least 64 and below 192, yielding a
record msg precisely when its paired boolean is true. -/
def routesClaimSpec (routing : List Bool) (own : ParamDict) : List Int :=
  (routing.zip (own.filter (fun kv => 64 ≤ kv.1 ∧ kv.1 < 192))).filterMap
    (fun bkv => if bkv.1 then some bkv.2.2.msg else none)

/-- Written from the words of the amended claim: zip the routing booleans
with the records whose id is at least 64 (no upper bound), yielding a record
msg precisely when its paired boolean is true. -/
def routesAmendedSpec (routing : List Bool) (own : ParamDict) : List Int :=
  (routing.zip (own.filter (fun kv => 64 ≤ kv.1))).filterMap
    (fun bkv => if bkv.1 then some bkv.2.2.msg else none)

/-- The ids of the event tuple in first-occurrence order: the key order of
the grouped `_events` dict of `MultiEventModel`. -/
def firstOccIds (events : List Event) : List Nat :=
  events.foldl (fun acc e => if acc.contains e.id then acc else acc ++ [e.id]) []

/-- The event-collecting loop of `Insert.__iter__` (mixer.py lines 471-473):
for slot position `i`, walk the grouped dict in key order and take the
`i`-th event of every id that belongs to the `SlotID` or `PluginID` family
and has at least `i + 1` events.  `PluginID` lives in plugin.py, outside
src/, so the family id list is a parameter; the settled claim holds for
every choice of it. -/
def slotEventsAt (familyIds : List Nat) (events : List Event) (i : Nat) : List Event :=
  (firstOccIds events).filterMap
    (fun id => if familyIds.contains id then (eventsById events id)[i]? else none)

/-- A constructed `Slot`: its events and its params records. -/
structure SlotModel where
  events : List Event
  params : ParamDict
  deriving DecidableEq, Repr

/-- The subscript `self._kw["params"][i]` evaluated by `Insert.__iter__`
(mixer.py line 475).  `_InsertItems` is a plain dataclass with fields
`slots` and `own` and defines no `__getitem__`, so Python raises
`TypeError: '_InsertItems' object is not subscriptable`. -/
def insertItemsGetitem (_params : InsertItems) (_i : Nat) : Except PyErr ParamDict :=
  Except.error PyErr.typeError

/-- The loop of `Insert.__iter__` (mixer.py lines 466-475) over the slot
positions, run to completion by the consumer: each position collects its
events and builds a `Slot` from them plus `params[i]`; an exception raised
while producing a slot aborts the whole iteration. -/
def insertIterGo (familyIds : List Nat) (events : List Event) (params : InsertItems) :
    List Nat → Except PyErr (List SlotModel)
  | [] => Except.ok []
  | i :: rest =>
    match insertItemsGetitem params i with
    | Except.error e => Except.error e
    | Except.ok ps =>
      match insertIterGo familyIds events params rest with
      | Except.error e => Except.error e
      | Except.ok tl =>
        Except.ok ({ events := slotEventsAt familyIds events i, params := ps } :: tl)

/-- `Insert.__iter__`: the loop over `range(max_slots + 1)`. -/
def insertIter (familyIds : List Nat) (events : List Event) (maxSlots : Nat)
    (params : InsertItems) : Except PyErr (List SlotModel) :=
  insertIterGo familyIds events params (List.range (maxSlots + 1))

/-! Helper lemmas. -/

/-- A pattern that contains a `PatternID.New` event has a defined index. -/
theorem patternIndex_of_mem {p : List Event} (h : ∃ e ∈ p, e.id = PatternID_New) :
    ∃ n, patternIndex p = Except.ok n := by
  unfold patternIndex
  obtain ⟨e, he, hid⟩ := h
  have hs : (p.find? (fun e => e.id == PatternID_New)).isSome := by
    rw [List.find?_isSome]
    exact ⟨e, he, by simp [hid]⟩
  obtain ⟨e2, h2⟩ := Option.isSome_iff_exists.mp hs
  rw [h2]
  exact ⟨e2.value, rfl⟩

/-- The lookup loop falls through to `ModelNotFound` when no pattern of the
list carries the requested index. -/
theorem patternsGetGo_not_found {ps : List (List Event)} {i : Nat}
    (hwf : ∀ p ∈ ps, ∃ e ∈ p, e.id = PatternID_New)
    (hne : ∀ p ∈ ps, patternIndex p ≠ Except.ok i) :
    patternsGetGo i ps = GetResult.raised PyErr.modelNotFound := by
  induction ps with
  | nil => rfl
  | cons p ps ih =>
    obtain ⟨n, hn⟩ := patternIndex_of_mem (hwf p (by simp))
    have hni : n ≠ i := by
      intro hEq
      exact hne p (by simp) (hEq ▸ hn)
    unfold patternsGetGo
    rw [hn]
    simp only [if_neg hni]
    exact ih (fun q hq => hwf q (by simp [hq])) (fun q hq => hne q (by simp [hq]))

/-- The lookup loop returns a pattern carrying the requested index when one
is present. -/
theorem patternsGetGo_found {ps : List (List Event)} {i : Nat}
    (hwf : ∀ p ∈ ps, ∃ e ∈ p, e.id = PatternID_New)
    (hex : ∃ p ∈ ps, patternIndex p = Except.ok i) :
    ∃ q, patternsGetGo i ps = GetResult.found q ∧ patternIndex q = Except.ok i := by
  induction ps with
  | nil => simp at hex
  | cons p ps ih =>
    obtain ⟨n, hn⟩ := patternIndex_of_mem (hwf p (by simp))
    unfold patternsGetGo
    rw [hn]
    by_cases hni : n = i
    · subst hni
      exact ⟨p, by simp, hn⟩
    · simp only [if_neg hni]
      apply ih (fun q hq => hwf q (by simp [hq]))
      obtain ⟨q, hq, hqi⟩ := hex
      rcases List.mem_cons.mp hq with rfl | hq2
      · rw [hn] at hqi
        cases hqi
        exact absurd rfl hni
      · exact ⟨q, hq2, hqi⟩

/-- After the index setter maps over a pattern that has a `PatternID.New`
event, the first such event found carries the new payload. -/
theorem find?_new_map (v : Nat) : ∀ (p : List Event),
    (∃ e ∈ p, e.id = PatternID_New) →
    (p.map (fun e => if e.id = PatternID_New then { e with value := v } else e)).find?
        (fun e => e.id == PatternID_New) = some ⟨PatternID_New, v⟩ := by
  intro p h
  induction p with
  | nil => simp at h
  | cons a p ih =>
    by_cases ha : a.id = PatternID_New
    · have hfa : (if a.id = PatternID_New then { a with value := v } else a)
          = (⟨PatternID_New, v⟩ : Event) := by
        rw [if_pos ha]
        cases a
        simp_all
      simp [List.find?_cons, hfa]
    · have hfa : (if a.id = PatternID_New then { a with value := v } else a) = a :=
        if_neg ha
      have hpa : ((a.id == PatternID_New) : Bool) = false := by simp [ha]
      simp only [List.map_cons, List.find?_cons, hfa, hpa]
      apply ih
      obtain ⟨e, he, hid⟩ := h
      rcases List.mem_cons.mp he with rfl | he2
      · exact absurd hid ha
      · exact ⟨e, he2, hid⟩

/-- The routes generator agrees with the zip description over records with
id at least 64 whenever the boolean list is long enough. -/
theorem routesGo_spec : ∀ (own : ParamDict) (bs : List Bool),
    (own.filter (fun kv => 64 ≤ kv.1)).length ≤ bs.length →
    routesGo bs own = Except.ok (routesAmendedSpec bs own) := by
  intro own
  induction own with
  | nil =>
    intro bs h
    simp [routesGo, routesAmendedSpec]
  | cons kv rest ih =>
    intro bs h
    by_cases h64 : 64 ≤ kv.1
    · have hfc : (kv :: rest).filter (fun kv => decide (64 ≤ kv.1))
          = kv :: rest.filter (fun kv => decide (64 ≤ kv.1)) :=
        List.filter_cons_of_pos (by simpa using h64)
      cases bs with
      | nil =>
        rw [hfc] at h
        simp at h
      | cons b bs2 =>
        have h2 : (rest.filter (fun kv => decide (64 ≤ kv.1))).length ≤ bs2.length := by
          rw [hfc] at h
          simpa using h
        unfold routesGo
        rw [if_pos (show RouteVolStart ≤ kv.1 from h64)]
        simp only [ih bs2 h2]
        unfold routesAmendedSpec
        rw [hfc]
        by_cases hb : b <;> simp [hb, List.zip_cons_cons, List.filterMap_cons]
    · have hfc : (kv :: rest).filter (fun kv => decide (64 ≤ kv.1))
          = rest.filter (fun kv => decide (64 ≤ kv.1)) :=
        List.filter_cons_of_neg (by simpa using h64)
      rw [hfc] at h
      unfold routesGo
      rw [if_neg (show ¬ RouteVolStart ≤ kv.1 from h64)]
      rw [ih bs h]
      unfold routesAmendedSpec
      rw [hfc]

/-! Claim theorems. -/

/-- Claim C1: evaluation of the parameter setter at a params table that does
contain the record of the Volume parameter.  The getter confirms the record
is present, yet the setter raises `PropertyCannotBeSet`: the claim says a
setter with a matching record returns without error, but the `for` loop of
`_MixerParamProp.__set__` has no `break`, so its `else` clause raises on
every call. -/
theorem mixer_param_set_raises_despite_match :
    mixerParamGet Volume [(Volume, ⟨Volume, 0, 12800⟩)] = some 12800
    ∧ (mixerParamSet Volume 100 [(Volume, ⟨Volume, 0, 12800⟩)]).2
        = some (PyErr.propertyCannotBeSet Volume) := by decide

/-- Claim C2: an accessor that raises is supposed to leave state unchanged,
but the parameter setter first mutates the matching record and then raises
`PropertyCannotBeSet`, so the params table observed after the raise differs
from the table before the call. -/
theorem mixer_param_set_mutates_before_raise :
    (mixerParamSet Volume 100 [(Volume, ⟨Volume, 0, 12800⟩), (Pan, ⟨Pan, 0, 0⟩)]).2
        = some (PyErr.propertyCannotBeSet Volume)
    ∧ (mixerParamSet Volume 100 [(Volume, ⟨Volume, 0, 12800⟩), (Pan, ⟨Pan, 0, 0⟩)]).1
        ≠ [(Volume, ⟨Volume, 0, 12800⟩), (Pan, ⟨Pan, 0, 0⟩)] := by decide

/-- Claim C3: the integer branch of the `Note.key` setter stores a value of
`[0, 132)` and rejects 132, and the getter renders 60 as C5 and 61 as C-sharp-5
as claimed; but the string branch raises `ValueError` even on those valid
names, because its `for` loop has no `break` and so its `else` clause always
raises.  For C5 the value 60 is stored before the raise; for the sharp name
the `int` conversion of the leftover suffix raises first and nothing is
stored. -/
theorem note_key_string_setter_always_raises :
    noteKeySetInt 60 0 = (60, none)
    ∧ noteKeyGet 60 = "C5"
    ∧ noteKeyGet 61 = "C#5"
    ∧ noteKeySetStr "C5" 0 = (60, some PyErr.valueError)
    ∧ noteKeySetStr "C#5" 61 = (61, some PyErr.valueError)
    ∧ noteKeySetInt 132 7 = (7, some PyErr.valueError) := by decide

/-- Claim C4: the max-limit tables list version key 1.6.5 with bounds 5 and
4, yet `max_inserts` and `max_slots` on a project of exactly that version
return 8 and 8: `dataclasses.astuple` yields the 4-tuple
`(1, 6, 5, None)`, which compares strictly greater than the 3-tuple key
`(1, 6, 5)` in Python, so the exact entry is skipped and the next one
matches. -/
theorem max_bounds_exact_version_mismatch :
    (((1, 6, 5), 5) ∈ MAX_INSERTS) ∧ (((1, 6, 5), 4) ∈ MAX_SLOTS)
    ∧ max_inserts ⟨1, 6, 5, none⟩ = 8 ∧ max_slots ⟨1, 6, 5, none⟩ = 8 := by decide

/-- Claim C5: slot iteration never yields the claimed `max_slots + 1` dense
slots; for every insert, with any event list, any bound and any params
table, producing the first slot evaluates `params[0]` on the `_InsertItems`
dataclass, which has no `__getitem__`, so the iteration raises `TypeError`
before yielding anything. -/
theorem insert_iter_type_error (familyIds : List Nat) (events : List Event)
    (maxSlots : Nat) (params : InsertItems) :
    insertIter familyIds events maxSlots params = Except.error PyErr.typeError := by
  unfold insertIter
  rw [List.range_succ_eq_map]
  rfl

/-- Claim C6 counterexample: a params table holding only the Volume record
(id 192).  The frozen claim says ids outside `[64, 192)` are not consulted
and consume no routing boolean, so the claimed yield is empty; the code
consumes the boolean and yields the Volume msg. -/
theorem routes_claim_counterexample :
    insertRoutes [true] [(192, ⟨192, 0, 555⟩)] = Except.ok [555]
    ∧ routesClaimSpec [true] [(192, ⟨192, 0, 555⟩)] = [] := by decide

/-- Claim C6 (amended): `Insert.routes` yields the msg values obtained by
zipping, in order, the routing booleans with exactly those records whose id
is at least 64 with no upper bound, yielding a record msg precisely when its
paired boolean is true; records with id below 64 are not consulted and
consume no boolean.  Stated for inputs whose boolean list is long enough
for the zip to cover every such record (otherwise the generator raises). -/
theorem insert_routes_zip_ge64 (routing : List Bool) (own : ParamDict)
    (h : (own.filter (fun kv => 64 ≤ kv.1)).length ≤ routing.length) :
    insertRoutes routing own = Except.ok (routesAmendedSpec routing own) :=
  routesGo_spec own routing h

/-- Witness for the amended claim C6 at a concrete insert: one send record
(id 64), the Volume record (id 192) and a per-slot record (id 5). -/
theorem insert_routes_zip_ge64_witness :
    (([((64 : Nat), (⟨64, 0, 10⟩ : MixerParamRecord)), (192, ⟨192, 0, 20⟩),
        (5, ⟨5, 0, 99⟩)].filter (fun kv => 64 ≤ kv.1)).length ≤ [true, false].length)
    ∧ insertRoutes [true, false]
        [(64, ⟨64, 0, 10⟩), (192, ⟨192, 0, 20⟩), (5, ⟨5, 0, 99⟩)]
      = Except.ok (routesAmendedSpec [true, false]
        [(64, ⟨64, 0, 10⟩), (192, ⟨192, 0, 20⟩), (5, ⟨5, 0, 99⟩)]) :=
  ⟨by decide,
   insert_routes_zip_ge64 [true, false]
     [(64, ⟨64, 0, 10⟩), (192, ⟨192, 0, 20⟩), (5, ⟨5, 0, 99⟩)] (by decide)⟩

/-- Claim C7: parsing a `Mixer.Params` body whose length is not a multiple
of 12 succeeds, marks the event unparsed, warns, keeps the bytes and
produces no entries; a body whose length is a multiple of 12 parses exactly
`len / 12` records and files each one as the claim describes
(`placeRecordSpec` and `paramRecords` are written from the words of the
claim). -/
theorem mixer_params_parse_spec (data : List Nat) :
    mixerParamsParse data =
      if data.length % 12 = 0 then
        { items := (paramRecords data).foldl placeRecordSpec []
          unparsed := false
          warned := false
          data := data }
      else { items := [], unparsed := true, warned := true, data := data } := by
  have h : placeRecordSpec = placeRecord := rfl
  unfold mixerParamsParse paramRecords
  rw [h, List.foldl_map]
  rfl

/-- Claim C8: the length of the patterns collection is the number of
distinct payload values of the `PatternID.New` events of the stream, and
the query raises `NoModelsFound` when the stream holds no such event. -/
theorem patterns_len_distinct (events : List Event) :
    patternsLen events =
      if events.filter (fun e => e.id == PatternID_New) = [] then
        Except.error PyErr.noModelsFound
      else
        Except.ok ((events.filter (fun e => e.id == PatternID_New)).map
          Event.value).toFinset.card := by
  unfold patternsLen eventsById
  rw [List.card_toFinset]

/-- Claim C9: pattern indexing is 1-based.  Index 0 warns and returns the
`NotImplemented` sentinel; for an index of at least 1, the lookup raises
`ModelNotFound` exactly when no yielded pattern carries that internal index,
and returns a pattern carrying it when one exists.  The hypothesis states
that every yielded pattern holds a `PatternID.New` event, which is how
`Patterns.__iter__` forms its buckets. -/
theorem patterns_getitem_one_based (events : List Event) (i : Nat)
    (hwf : ∀ p ∈ patternsIter events, ∃ e ∈ p, e.id = PatternID_New) :
    patternsGetItem events 0 = GetResult.notImplemented
    ∧ (1 ≤ i → (∀ p ∈ patternsIter events, patternIndex p ≠ Except.ok i) →
        patternsGetItem events i = GetResult.raised PyErr.modelNotFound)
    ∧ (1 ≤ i → (∃ p ∈ patternsIter events, patternIndex p = Except.ok i) →
        ∃ q, patternsGetItem events i = GetResult.found q
          ∧ patternIndex q = Except.ok i) := by
  refine ⟨rfl, fun hi hne => ?_, fun hi hex => ?_⟩
  · unfold patternsGetItem
    rw [if_neg (by omega)]
    exact patternsGetGo_not_found hwf hne
  · unfold patternsGetItem
    rw [if_neg (by omega)]
    exact patternsGetGo_found hwf hex

/-- Witness for claim C9 at the concrete stream of the spec scenario: two
patterns with indices 1 and 2 (each `New` event doubled) and one Notes
event; index 0 yields the sentinel and index 3 raises `ModelNotFound`. -/
theorem patterns_getitem_one_based_witness :
    (∀ p ∈ patternsIter [(⟨65, 1⟩ : Event), ⟨65, 1⟩, ⟨65, 2⟩, ⟨65, 2⟩, ⟨224, 0⟩],
        ∃ e ∈ p, e.id = PatternID_New)
    ∧ patternsGetItem [⟨65, 1⟩, ⟨65, 1⟩, ⟨65, 2⟩, ⟨65, 2⟩, ⟨224, 0⟩] 0
        = GetResult.notImplemented
    ∧ patternsGetItem [⟨65, 1⟩, ⟨65, 1⟩, ⟨65, 2⟩, ⟨65, 2⟩, ⟨224, 0⟩] 3
        = GetResult.raised PyErr.modelNotFound :=
  ⟨by decide,
   (patterns_getitem_one_based [⟨65, 1⟩, ⟨65, 1⟩, ⟨65, 2⟩, ⟨65, 2⟩, ⟨224, 0⟩] 3
      (by decide)).1,
   (patterns_getitem_one_based [⟨65, 1⟩, ⟨65, 1⟩, ⟨65, 2⟩, ⟨65, 2⟩, ⟨224, 0⟩] 3
      (by decide)).2.1 (by decide) (by decide)⟩

/-- Claim C10: on a pattern holding at least one `PatternID.New` event, the
index setter succeeds, writes the new payload into every `PatternID.New`
event of the pattern, and a subsequent read of the index returns the new
value. -/
theorem pattern_index_setter_updates_all (p : List Event) (v : Nat)
    (h : ∃ e ∈ p, e.id = PatternID_New) :
    (patternSetIndex v p).2 = none
    ∧ (∀ e ∈ (patternSetIndex v p).1, e.id = PatternID_New → e.value = v)
    ∧ patternIndex (patternSetIndex v p).1 = Except.ok v := by
  have hany : p.any (fun e => e.id == PatternID_New) = true := by
    rw [List.any_eq_true]
    obtain ⟨e, he, hid⟩ := h
    exact ⟨e, he, by simp [hid]⟩
  unfold patternSetIndex
  rw [if_pos hany]
  refine ⟨rfl, ?_, ?_⟩
  · intro e he hid
    obtain ⟨a, ha, rfl⟩ := List.mem_map.mp he
    by_cases haid : a.id = PatternID_New
    · rw [if_pos haid]
    · rw [if_neg haid] at hid ⊢
      exact absurd hid haid
  · unfold patternIndex
    rw [find?_new_map v p h]

/-- Witness for claim C10 at a concrete pattern with its doubled `New`
events (payload 4) and one Notes event, re-indexed to 9. -/
theorem pattern_index_setter_updates_all_witness :
    (∃ e ∈ [(⟨65, 4⟩ : Event), ⟨65, 4⟩, ⟨224, 0⟩], e.id = PatternID_New)
    ∧ ((patternSetIndex 9 [⟨65, 4⟩, ⟨65, 4⟩, ⟨224, 0⟩]).2 = none
      ∧ (∀ e ∈ (patternSetIndex 9 [⟨65, 4⟩, ⟨65, 4⟩, ⟨224, 0⟩]).1,
          e.id = PatternID_New → e.value = 9)
      ∧ patternIndex (patternSetIndex 9 [⟨65, 4⟩, ⟨65, 4⟩, ⟨224, 0⟩]).1 = Except.ok 9) :=
  ⟨by decide, pattern_index_setter_updates_all [⟨65, 4⟩, ⟨65, 4⟩, ⟨224, 0⟩] 9 (by decide)⟩

end PyFLP
